import Mathlib

/-
Verification of the trading-news listener pipeline
(backend/services/listener: NewsListenerWorkflow, NewsAnalysisBackgroundService,
LLMService, PostgreSQLService, Worker) against its natural-language
specification.

Shallow embedding conventions:
- C# strings are Lean `String`; `DateTime` is `Int` (an abstract instant);
  `double` confidence values are `Rat` (no claim depends on float rounding).
- External effects (the HTTP round-trip to the LLM, JSON parsing of the
  response content, `DateTime.TryParse`) are modelled by explicit environment
  values / function parameters describing their outcome.
- Fallible C# code is modelled with `Except` (thrown exceptions) and `Option`
  (null results); the database table is a `List` of rows keyed by `Id`.
-/

namespace TradingNews

/-! ## Data model (Models/SignalData.cs, listener README) -/

/-- `RSSFeedRecord` from the listener's models: the raw news payload.
`PublishedDate` keeps the wire string (`published_at`), `Source` is the
`feed_url` JSON field and `Id` the `guid` field; `Category` and `Sentiment`
are nullable. -/
structure RSSFeedRecord where
  Title : String
  Description : String
  Link : String
  PublishedDate : String
  Source : String
  Id : String
  Category : Option String
  Sentiment : Option String
deriving DecidableEq

/-- `SignalData`: the inbound envelope (`id`, `timestamp`, `data`). -/
structure SignalData where
  Id : String
  Timestamp : String
  Data : RSSFeedRecord
deriving DecidableEq

/-- `NewsAnalysisResponse` (Models/NewsAnalysis.cs): the structured LLM
analysis.  Every field has a C# initializer default (empty list, empty
string, 0), which is what `System.Text.Json` leaves in place when the
corresponding JSON property is absent. -/
structure NewsAnalysisResponse where
  Tickers : List String
  Sector : String
  Industry : String
  Sentiment : String
  Entities : List String
  Summary : String
  Confidence : Rat
deriving DecidableEq

/-- A parsed JSON object for the LLM's message content: each property of
`NewsAnalysisResponse` is either present with a value or absent. -/
structure AnalysisJson where
  tickers : Option (List String)
  sector : Option String
  industry : Option String
  sentiment : Option String
  entities : Option (List String)
  summary : Option String
  confidence : Option Rat
deriving DecidableEq

/-- `JsonSerializer.Deserialize<NewsAnalysisResponse>` applied to a parsed
JSON object: absent properties keep the C# initializer defaults
(`string.Empty`, `new()`, `0`); no property is required. -/
def deserializeNewsAnalysis (j : AnalysisJson) : NewsAnalysisResponse :=
  { Tickers := j.tickers.getD []
    Sector := j.sector.getD ""
    Industry := j.industry.getD ""
    Sentiment := j.sentiment.getD ""
    Entities := j.entities.getD []
    Summary := j.summary.getD ""
    Confidence := j.confidence.getD 0 }

/-! ## Enrichment adapter (Services/LLMService.cs, AnalyzeNewsAsync) -/

/-- The .NET exceptions that can surface inside `AnalyzeNewsAsync`'s try
block: a transport failure from `HttpClient.PostAsync` and a
`JsonException` from `JsonSerializer.Deserialize`. -/
inductive DotnetException where
  | httpRequestException
  | jsonException
deriving DecidableEq

/-- Outcome of the external LLM round-trip plus the parse of the returned
message content, as seen by `AnalyzeNewsAsync`:
- `transportThrow`: `PostAsync` throws;
- `httpError`: response with a non-success status code;
- `emptyResponse`: envelope whose `choices/message/content` chain is null
  or empty (including an unparseable envelope yielding null);
- `malformedContent`: message content that is not valid JSON
  (`Deserialize` throws `JsonException`);
- `nullContent`: message content is the JSON literal `null`
  (`Deserialize` returns null);
- `parsedContent j`: message content parses to the JSON object `j`. -/
inductive AdapterEnv where
  | transportThrow
  | httpError
  | emptyResponse
  | malformedContent
  | nullContent
  | parsedContent (j : AnalysisJson)
deriving DecidableEq

/-- The body of `AnalyzeNewsAsync`'s try block: explicit `return null` on a
non-success status or an empty/invalid envelope, the deserialized analysis
on parsed content, and a thrown exception otherwise.  Traced from
LLMService.cs lines 73-125. -/
def analyzeNewsBody : AdapterEnv → Except DotnetException (Option NewsAnalysisResponse)
  | .transportThrow => .error .httpRequestException
  | .httpError => .ok none
  | .emptyResponse => .ok none
  | .malformedContent => .error .jsonException
  | .nullContent => .ok none
  | .parsedContent j => .ok (some (deserializeNewsAnalysis j))

/-- `AnalyzeNewsAsync`: the whole body is wrapped in
`try { ... } catch (Exception) { return null; }`, so every thrown
exception becomes a null result. -/
def analyzeNewsAsync (env : AdapterEnv) : Option NewsAnalysisResponse :=
  match analyzeNewsBody env with
  | .ok v => v
  | .error _ => none

/-- Whether the environment delivered parseable message content (the only
case in which `AnalyzeNewsAsync` returns a non-null analysis). -/
def isParsedContent : AdapterEnv → Bool
  | .parsedContent _ => true
  | _ => false

/-! ## Signal receiver (Workflows/NewsListenerWorkflow.cs) -/

/-- The workflow's only mutable state: the `_receivedSignals` list
(`private readonly List<SignalData> _receivedSignals = new()`). -/
structure NewsListenerWorkflowState where
  receivedSignals : List SignalData
deriving DecidableEq

/-- `HandleNewsSignal` (the `news-feed-signal` handler): appends the signal
to `_receivedSignals` and logs it.  The source performs no validation and
has no failure path. -/
def handleNewsSignal (st : NewsListenerWorkflowState) (signalData : SignalData) :
    NewsListenerWorkflowState :=
  { st with receivedSignals := st.receivedSignals ++ [signalData] }

/-- `GetSignalsCount` query: `_receivedSignals.Count`. -/
def getSignalsCount (st : NewsListenerWorkflowState) : Nat :=
  st.receivedSignals.length

/-! ## Record conversion (NewsAnalysisBackgroundService.ConvertToAnalyzedNewsRecord) -/

/-- `AnalyzedNewsRecord` (Models/NewsAnalysis.cs): the row persisted to the
`analyzed_news` table.  `Tickers`/`Entities` hold JSON arrays serialized to
strings, as in the C# class. -/
structure AnalyzedNewsRecord where
  Id : String
  Title : String
  Description : String
  Link : String
  PublishedAt : Int
  Source : String
  Category : String
  OriginalSentiment : String
  AnalyzedSentiment : String
  Sector : String
  Industry : String
  Tickers : String
  Entities : String
  Summary : String
  Confidence : Rat
  AnalyzedAt : Int
deriving DecidableEq

/-- `JsonSerializer.Serialize` on a `List<string>`: an order-preserving
JSON array encoding (escaping elided; no claim depends on it). -/
def serializeStringList (xs : List String) : String :=
  "[" ++ String.intercalate "," (xs.map (fun s => "\x22" ++ s ++ "\x22")) ++ "]"

/-- The published-at computation at the top of `ConvertToAnalyzedNewsRecord`:
start from `DateTime.UtcNow`; if the wire string is non-empty, try to parse
it, and fall back to `UtcNow` again when `DateTime.TryParse` fails.
`tryParse` abstracts `DateTime.TryParse`, `now` abstracts `DateTime.UtcNow`. -/
def parsePublishedAt (tryParse : String → Option Int) (now : Int) (s : String) : Int :=
  if s = "" then now
  else
    match tryParse s with
    | some d => d
    | none => now

/-- `ConvertToAnalyzedNewsRecord(signalData, analysis)`: raw columns come
from `signalData.Data` (with `?? string.Empty` on the nullable ones, and
`Id = signalData.Data.Id`), enrichment columns from `analysis`, and
`AnalyzedAt = DateTime.UtcNow`. -/
def convertToAnalyzedNewsRecord (tryParse : String → Option Int) (now : Int)
    (signalData : SignalData) (analysis : NewsAnalysisResponse) : AnalyzedNewsRecord :=
  { Id := signalData.Data.Id
    Title := signalData.Data.Title
    Description := signalData.Data.Description
    Link := signalData.Data.Link
    PublishedAt := parsePublishedAt tryParse now signalData.Data.PublishedDate
    Source := signalData.Data.Source
    Category := signalData.Data.Category.getD ""
    OriginalSentiment := signalData.Data.Sentiment.getD ""
    AnalyzedSentiment := analysis.Sentiment
    Sector := analysis.Sector
    Industry := analysis.Industry
    Tickers := serializeStringList analysis.Tickers
    Entities := serializeStringList analysis.Entities
    Summary := analysis.Summary
    Confidence := analysis.Confidence
    AnalyzedAt := now }

/-! ## Persistence gateway (Program.cs, PostgreSQLService) -/

/-- The `ON CONFLICT (id) DO UPDATE SET` clause of `SaveAnalyzedNewsAsync`:
on an existing row, exactly the eight enrichment columns are overwritten
with the excluded (new) values; every other column keeps the old value. -/
def applyEnrichmentUpdate (old new : AnalyzedNewsRecord) : AnalyzedNewsRecord :=
  { old with
    AnalyzedSentiment := new.AnalyzedSentiment
    Sector := new.Sector
    Industry := new.Industry
    Tickers := new.Tickers
    Entities := new.Entities
    Summary := new.Summary
    Confidence := new.Confidence
    AnalyzedAt := new.AnalyzedAt }

/-- `SaveAnalyzedNewsAsync`'s INSERT ... ON CONFLICT semantics over a table
modelled as a list of rows keyed by `Id`: insert the row if the key is
absent, otherwise update the conflicting row's enrichment columns. -/
def saveAnalyzedNewsAsync (record : AnalyzedNewsRecord)
    (db : List AnalyzedNewsRecord) : List AnalyzedNewsRecord :=
  if db.any (fun row => row.Id = record.Id) then
    db.map (fun row => if row.Id = record.Id then applyEnrichmentUpdate row record else row)
  else
    db ++ [record]

/-- The schema touched by `InitializeDatabaseAsync`, as state: whether the
`analyzed_news` table exists, its column list, and the set of index names. -/
structure SchemaState where
  tableExists : Bool
  tableColumns : List String
  indexes : List String
deriving DecidableEq

/-- The column list of the `CREATE TABLE IF NOT EXISTS analyzed_news` DDL. -/
def analyzedNewsBaseColumns : List String :=
  ["id", "title", "description", "link", "published_at", "source", "category",
   "original_sentiment", "analyzed_sentiment", "sector", "industry", "tickers",
   "entities", "summary", "confidence", "analyzed_at"]

/-- `CREATE TABLE IF NOT EXISTS analyzed_news (...)`: creates the table with
its declared columns only when absent; an existing table is untouched. -/
def createTableIfNotExists (s : SchemaState) : SchemaState :=
  if s.tableExists then s
  else { tableExists := true, tableColumns := analyzedNewsBaseColumns, indexes := s.indexes }

/-- `ALTER TABLE analyzed_news ADD COLUMN IF NOT EXISTS ...`: appends the
column only when absent. -/
def addColumnIfNotExists (col : String) (s : SchemaState) : SchemaState :=
  if col ∈ s.tableColumns then s
  else { s with tableColumns := s.tableColumns ++ [col] }

/-- `CREATE INDEX IF NOT EXISTS ...`: adds the index only when absent. -/
def createIndexIfNotExists (idx : String) (s : SchemaState) : SchemaState :=
  if idx ∈ s.indexes then s
  else { s with indexes := s.indexes ++ [idx] }

/-- `InitializeDatabaseAsync`: the DDL batch executed at startup, in source
order — create-if-absent table, add-if-absent `industry` column, then the
four create-if-absent indexes. -/
def initializeDatabaseAsync (s : SchemaState) : SchemaState :=
  createIndexIfNotExists "idx_analyzed_news_sentiment"
    (createIndexIfNotExists "idx_analyzed_news_industry"
      (createIndexIfNotExists "idx_analyzed_news_sector"
        (createIndexIfNotExists "idx_analyzed_news_analyzed_at"
          (addColumnIfNotExists "industry"
            (createTableIfNotExists s)))))

/-! ## Enrichment worker loop (NewsAnalysisBackgroundService) -/

/-- `ProcessNewsSignal` for one dequeued item: run the adapter; on a null
analysis log and return with the table unchanged; otherwise convert and
save.  The whole body sits in a catch-all, so no exception escapes. -/
def processNewsSignal (env : AdapterEnv) (tryParse : String → Option Int) (now : Int)
    (signalData : SignalData) (db : List AnalyzedNewsRecord) : List AnalyzedNewsRecord :=
  match analyzeNewsAsync env with
  | none => db
  | some analysis =>
      saveAnalyzedNewsAsync (convertToAnalyzedNewsRecord tryParse now signalData analysis) db

/-- `ProcessNewsQueue`'s per-item behavior over a finite drain schedule:
each queued item is dequeued exactly once and handed to
`ProcessNewsSignal`; the loop then moves on to the next item.  The paired
`AdapterEnv` records what the external LLM did for that item. -/
def processNewsQueue (tryParse : String → Option Int) (now : Int) :
    List (SignalData × AdapterEnv) → List AnalyzedNewsRecord → List AnalyzedNewsRecord
  | [], db => db
  | (sig, env) :: rest, db =>
      processNewsQueue tryParse now rest (processNewsSignal env tryParse now sig db)

/-! ## Durable workflow controller startup (Worker.ExecuteAsync) -/

/-- `Temporalio.Api.Enums.V1.WorkflowExecutionStatus`. -/
inductive WorkflowExecutionStatus where
  | Unspecified
  | Running
  | Completed
  | Failed
  | Canceled
  | Terminated
  | ContinuedAsNew
  | TimedOut
deriving DecidableEq

/-- Outcome of `workflowHandle.DescribeAsync()` on the existing instance:
either a status, or the query itself threw. -/
inductive DescribeResult where
  | ok (status : WorkflowExecutionStatus)
  | threw
deriving DecidableEq

/-- What the startup routine decides to do about the existing instance. -/
inductive StartDecision where
  | attach (workflowId : String)
  | startFresh (workflowId : String)
deriving DecidableEq

/-- The four statuses `Worker.ExecuteAsync` treats as terminal (lines
50-53: `Canceled`, `Terminated`, `Failed`, `Completed`). -/
def isTerminalStatus : WorkflowExecutionStatus → Bool
  | .Canceled => true
  | .Terminated => true
  | .Failed => true
  | .Completed => true
  | _ => false

/-- The fresh identity minted on resume: `$"{workflowId}-{timestamp}"`. -/
def mintTimestampId (logicalId timestamp : String) : String :=
  logicalId ++ "-" ++ timestamp

/-- The `WorkflowAlreadyStartedException` branch of `Worker.ExecuteAsync`,
as a pure function of the describe outcome: a terminal status (or a failed
status query) mints a timestamp-suffixed id and starts a fresh instance;
any other status attaches to the existing handle under the logical id. -/
def resolveExistingWorkflow (logicalId timestamp : String) :
    DescribeResult → StartDecision
  | .ok status =>
      if isTerminalStatus status then .startFresh (mintTimestampId logicalId timestamp)
      else .attach logicalId
  | .threw => .startFresh (mintTimestampId logicalId timestamp)

/-! ## Concrete sample values used by counterexamples and witnesses -/

/-- A raw payload with every optional field absent and an empty guid. -/
def emptyGuidPayload : RSSFeedRecord :=
  { Title := "Central bank raises key rate", Description := "d", Link := "l",
    PublishedDate := "", Source := "Reuters", Id := "", Category := none,
    Sentiment := none }

/-- An envelope whose `id` is empty (and whose payload guid is empty too). -/
def emptyIdSignal : SignalData :=
  { Id := "", Timestamp := "2025-06-07T21:30:00Z", Data := emptyGuidPayload }

/-- A well-formed envelope carrying the `n1` news item of the spec's
scenario. -/
def sampleSignal : SignalData :=
  { Id := "n1", Timestamp := "2025-06-07T21:30:00Z",
    Data := { Title := "Central bank raises key rate", Description := "d",
              Link := "l", PublishedDate := "", Source := "Reuters",
              Id := "n1", Category := none, Sentiment := none } }

/-- Message content parsed to a JSON object whose `confidence` is 2,
outside [0,1], with all other fields present and well-formed. -/
def overConfidentJson : AnalysisJson :=
  { tickers := some ["SBER"], sector := some "Finance", industry := some "Banks",
    sentiment := some "positive", entities := some ["Sberbank"],
    summary := some "rate decision", confidence := some 2 }

/-- Message content parsed to the empty JSON object: every field, including
the required `sector` and `sentiment`, is missing. -/
def emptyObjectJson : AnalysisJson :=
  { tickers := none, sector := none, industry := none, sentiment := none,
    entities := none, summary := none, confidence := none }

/-! ## Theorems -/

/-- Claim C1, counterexample: the adapter response whose `confidence` is
2 (outside [0,1]) is not rejected — `AnalyzeNewsAsync` returns it as a
successful analysis, and `ProcessNewsSignal` hands the derived record to
the gateway, which persists it with the unclamped confidence 2. -/
theorem confidence_out_of_range_not_rejected_cex :
    (deserializeNewsAnalysis overConfidentJson).Confidence = 2
    ∧ ¬ ((2 : Rat) ≤ 1)
    ∧ analyzeNewsAsync (AdapterEnv.parsedContent overConfidentJson) ≠ none
    ∧ processNewsSignal (AdapterEnv.parsedContent overConfidentJson)
        (fun _ => none) 0 sampleSignal [] ≠ []
    ∧ (processNewsSignal (AdapterEnv.parsedContent overConfidentJson)
        (fun _ => none) 0 sampleSignal []).countP
          (fun row => (1 : Rat) < row.Confidence) = 1 := by
  refine ⟨rfl, by norm_num, ?_, ?_, ?_⟩ <;> decide

/-- Claim C1 as amended: the adapter performs no confidence-range
validation.  A parsed response whose `confidence` lies outside [0,1] is
returned as a successful analysis with the value passed through unclamped,
and the record derived from it is handed to the persistence gateway's save
operation carrying that out-of-range confidence. -/
theorem confidence_passthrough_unclamped (j : AnalysisJson) (c : Rat)
    (sig : SignalData) (db : List AnalyzedNewsRecord)
    (tryParse : String → Option Int) (now : Int)
    (hc : j.confidence = some c) (_hout : c < 0 ∨ 1 < c) :
    analyzeNewsAsync (AdapterEnv.parsedContent j) = some (deserializeNewsAnalysis j)
    ∧ (deserializeNewsAnalysis j).Confidence = c
    ∧ processNewsSignal (AdapterEnv.parsedContent j) tryParse now sig db
        = saveAnalyzedNewsAsync
            (convertToAnalyzedNewsRecord tryParse now sig (deserializeNewsAnalysis j)) db
    ∧ (convertToAnalyzedNewsRecord tryParse now sig (deserializeNewsAnalysis j)).Confidence
        = c := by
  refine ⟨rfl, ?_, rfl, ?_⟩ <;>
    simp [deserializeNewsAnalysis, convertToAnalyzedNewsRecord, hc]

/-- Witness for the amended claim C1 at the concrete confidence-2
response. -/
theorem confidence_passthrough_unclamped_witness :
    overConfidentJson.confidence = some 2
    ∧ ((2 : Rat) < 0 ∨ 1 < (2 : Rat))
    ∧ (analyzeNewsAsync (AdapterEnv.parsedContent overConfidentJson)
          = some (deserializeNewsAnalysis overConfidentJson)
        ∧ (deserializeNewsAnalysis overConfidentJson).Confidence = 2
        ∧ processNewsSignal (AdapterEnv.parsedContent overConfidentJson)
            (fun _ => none) 0 sampleSignal []
            = saveAnalyzedNewsAsync
                (convertToAnalyzedNewsRecord (fun _ => none) 0 sampleSignal
                  (deserializeNewsAnalysis overConfidentJson)) []
        ∧ (convertToAnalyzedNewsRecord (fun _ => none) 0 sampleSignal
            (deserializeNewsAnalysis overConfidentJson)).Confidence = 2) :=
  ⟨rfl, by norm_num,
    confidence_passthrough_unclamped overConfidentJson 2 sampleSignal []
      (fun _ => none) 0 rfl (by norm_num)⟩

/-- Claim C2, counterexample: an envelope with an empty `id` is not
rejected — `HandleNewsSignal` appends it to the received list, so the
state changes and the received counter increments from 0 to 1; there is no
ValidationError path in the handler. -/
theorem empty_id_signal_accepted_cex :
    emptyIdSignal.Id = ""
    ∧ handleNewsSignal ⟨[]⟩ emptyIdSignal ≠ ⟨[]⟩
    ∧ getSignalsCount (handleNewsSignal ⟨[]⟩ emptyIdSignal) = 1 := by
  refine ⟨rfl, ?_, rfl⟩
  decide

/-- Claim C2 as amended: `HandleNewsSignal` performs no validation — every
envelope, including one with an empty `id` or an empty payload title, is
appended to the received-signals list and the received counter increments
by one; the handler has no failure path. -/
theorem handleNewsSignal_no_validation (st : NewsListenerWorkflowState)
    (sig : SignalData) :
    (handleNewsSignal st sig).receivedSignals = st.receivedSignals ++ [sig]
    ∧ getSignalsCount (handleNewsSignal st sig) = getSignalsCount st + 1 := by
  constructor
  · rfl
  · simp [handleNewsSignal, getSignalsCount]

/-- Claim C3, counterexample: the signal queue has no finite capacity — for
every candidate capacity `C` there is a state of size at least `C` on which
submitting still changes the state (the envelope is appended rather than
rejected), refuting the claimed backpressure bound. -/
theorem no_finite_queue_capacity_cex :
    ¬ ∃ C : Nat, ∀ (st : NewsListenerWorkflowState) (sig : SignalData),
        C ≤ getSignalsCount st → handleNewsSignal st sig = st := by
  rintro ⟨C, h⟩
  have hfix := h ⟨List.replicate C sampleSignal⟩ sampleSignal
    (by simp [getSignalsCount])
  have hlen := congrArg (fun st => st.receivedSignals.length) hfix
  simp [handleNewsSignal] at hlen

/-- Claim C3 as amended: the signal queue is an unbounded in-memory list —
every submit grows it by exactly one element, never rejects the envelope,
and never leaves the state unchanged; no backpressure error exists. -/
theorem handleNewsSignal_queue_unbounded (st : NewsListenerWorkflowState)
    (sig : SignalData) :
    (handleNewsSignal st sig).receivedSignals.length
        = st.receivedSignals.length + 1
    ∧ handleNewsSignal st sig ≠ st := by
  constructor
  · simp [handleNewsSignal]
  · intro heq
    have hlen := congrArg (fun s => s.receivedSignals.length) heq
    simp [handleNewsSignal] at hlen

/-- Claim C4: the startup routine's decision, as a function of the queried
status of the existing instance under the logical identity — `Running`
attaches to the existing instance under the logical id; each of the four
terminal statuses (`Completed`, `Canceled`, `Terminated`, `Failed`) starts
a fresh instance under the timestamp-suffixed id; and a failed status
query likewise starts a fresh timestamp-suffixed instance. -/
theorem worker_resume_decision (logicalId timestamp : String) :
    resolveExistingWorkflow logicalId timestamp (DescribeResult.ok .Running)
        = StartDecision.attach logicalId
    ∧ resolveExistingWorkflow logicalId timestamp (DescribeResult.ok .Completed)
        = StartDecision.startFresh (mintTimestampId logicalId timestamp)
    ∧ resolveExistingWorkflow logicalId timestamp (DescribeResult.ok .Canceled)
        = StartDecision.startFresh (mintTimestampId logicalId timestamp)
    ∧ resolveExistingWorkflow logicalId timestamp (DescribeResult.ok .Terminated)
        = StartDecision.startFresh (mintTimestampId logicalId timestamp)
    ∧ resolveExistingWorkflow logicalId timestamp (DescribeResult.ok .Failed)
        = StartDecision.startFresh (mintTimestampId logicalId timestamp)
    ∧ resolveExistingWorkflow logicalId timestamp DescribeResult.threw
        = StartDecision.startFresh (mintTimestampId logicalId timestamp) :=
  ⟨rfl, rfl, rfl, rfl, rfl, rfl⟩

/-- Inserting into a table whose key set misses the record's id appends
the row. -/
theorem saveAnalyzedNews_absent (record : AnalyzedNewsRecord)
    (db : List AnalyzedNewsRecord)
    (h : db.any (fun row => row.Id = record.Id) = false) :
    saveAnalyzedNewsAsync record db = db ++ [record] := by
  simp [saveAnalyzedNewsAsync, h]

/-- `applyEnrichmentUpdate` never changes the key. -/
theorem applyEnrichmentUpdate_Id (old new : AnalyzedNewsRecord) :
    (applyEnrichmentUpdate old new).Id = old.Id := rfl

/-- Claim C5: starting from a table with no row keyed `r1.Id`, upserting
`r1` and then `r2` (same id, possibly different enrichment output) leaves
exactly one row with that id, and that row carries `r1`'s raw columns
(title, description, link, published-at, source, category, original
sentiment) and `r2`'s enrichment columns (analyzed sentiment, sector,
industry, tickers, entities, summary, confidence, analyzed-at). -/
theorem upsert_same_id_exactly_one_row_frame (db : List AnalyzedNewsRecord)
    (r1 r2 : AnalyzedNewsRecord)
    (h0 : db.countP (fun row => row.Id = r1.Id) = 0)
    (h12 : r2.Id = r1.Id) :
    (saveAnalyzedNewsAsync r2 (saveAnalyzedNewsAsync r1 db)).countP
        (fun row => row.Id = r1.Id) = 1
    ∧ ∀ row ∈ saveAnalyzedNewsAsync r2 (saveAnalyzedNewsAsync r1 db),
        row.Id = r1.Id →
          row.Title = r1.Title ∧ row.Description = r1.Description
          ∧ row.Link = r1.Link ∧ row.PublishedAt = r1.PublishedAt
          ∧ row.Source = r1.Source ∧ row.Category = r1.Category
          ∧ row.OriginalSentiment = r1.OriginalSentiment
          ∧ row.AnalyzedSentiment = r2.AnalyzedSentiment
          ∧ row.Sector = r2.Sector ∧ row.Industry = r2.Industry
          ∧ row.Tickers = r2.Tickers ∧ row.Entities = r2.Entities
          ∧ row.Summary = r2.Summary ∧ row.Confidence = r2.Confidence
          ∧ row.AnalyzedAt = r2.AnalyzedAt := by
  have hnot : ∀ row ∈ db, ¬ row.Id = r1.Id := by
    intro row hrow
    have := List.countP_eq_zero.mp h0 row hrow
    simpa using this
  have hany1 : db.any (fun row => row.Id = r1.Id) = false := by
    rw [← Bool.not_eq_true]
    simp only [List.any_eq_true, decide_eq_true_eq, not_exists]
    intro row hconj
    exact hnot row hconj.1 hconj.2
  have hdb1 : saveAnalyzedNewsAsync r1 db = db ++ [r1] :=
    saveAnalyzedNews_absent r1 db hany1
  have hany2 : (db ++ [r1]).any (fun row => row.Id = r2.Id) = true := by
    simp [h12]
  have hmapdb : db.map
      (fun row => if row.Id = r2.Id then applyEnrichmentUpdate row r2 else row) = db := by
    have := List.map_congr_left (l := db)
      (f := fun row => if row.Id = r2.Id then applyEnrichmentUpdate row r2 else row)
      (g := id) ?_
    · simpa using this
    · intro row hrow
      have hne : ¬ row.Id = r2.Id := by
        rw [h12]
        exact hnot row hrow
      simp [hne]
  have hdb2 : saveAnalyzedNewsAsync r2 (saveAnalyzedNewsAsync r1 db)
      = db ++ [applyEnrichmentUpdate r1 r2] := by
    rw [hdb1]
    simp only [saveAnalyzedNewsAsync, hany2, if_true]
    rw [List.map_append, hmapdb]
    have hr1 : r1.Id = r2.Id := h12.symm
    simp [hr1]
  rw [hdb2]
  constructor
  · rw [List.countP_append]
    have hcnt0 : db.countP (fun row => row.Id = r1.Id) = 0 := h0
    rw [hcnt0]
    simp [applyEnrichmentUpdate_Id]
  · intro row hrow hid
    rcases List.mem_append.mp hrow with hin | hin
    · exact absurd hid (hnot row hin)
    · have : row = applyEnrichmentUpdate r1 r2 := by simpa using hin
      subst this
      simp [applyEnrichmentUpdate]

/-- First upsert of the spec's scenario: row `n1` with the initial
enrichment output. -/
def firstWrite : AnalyzedNewsRecord :=
  { Id := "n1", Title := "Central bank raises key rate", Description := "d",
    Link := "l", PublishedAt := 10, Source := "Reuters", Category := "",
    OriginalSentiment := "", AnalyzedSentiment := "positive",
    Sector := "Finance", Industry := "Banks",
    Tickers := "[\x22SBER\x22]", Entities := "[\x22Sberbank\x22]",
    Summary := "s1", Confidence := 1, AnalyzedAt := 11 }

/-- Second upsert with the same id but different enrichment output. -/
def secondWrite : AnalyzedNewsRecord :=
  { Id := "n1", Title := "IGNORED TITLE", Description := "IGNORED",
    Link := "ignored", PublishedAt := 99, Source := "ignored", Category := "x",
    OriginalSentiment := "x", AnalyzedSentiment := "neutral",
    Sector := "Energy", Industry := "Oil",
    Tickers := "[\x22GAZP\x22]", Entities := "[\x22Gazprom\x22]",
    Summary := "s2", Confidence := 0, AnalyzedAt := 12 }

/-- Witness for claim C5 at the concrete two-write scenario on an empty
table. -/
theorem upsert_same_id_exactly_one_row_frame_witness :
    ([] : List AnalyzedNewsRecord).countP (fun row => row.Id = firstWrite.Id) = 0
    ∧ secondWrite.Id = firstWrite.Id
    ∧ ((saveAnalyzedNewsAsync secondWrite
          (saveAnalyzedNewsAsync firstWrite [])).countP
            (fun row => row.Id = firstWrite.Id) = 1
        ∧ ∀ row ∈ saveAnalyzedNewsAsync secondWrite
              (saveAnalyzedNewsAsync firstWrite []),
            row.Id = firstWrite.Id →
              row.Title = firstWrite.Title
              ∧ row.Description = firstWrite.Description
              ∧ row.Link = firstWrite.Link
              ∧ row.PublishedAt = firstWrite.PublishedAt
              ∧ row.Source = firstWrite.Source
              ∧ row.Category = firstWrite.Category
              ∧ row.OriginalSentiment = firstWrite.OriginalSentiment
              ∧ row.AnalyzedSentiment = secondWrite.AnalyzedSentiment
              ∧ row.Sector = secondWrite.Sector
              ∧ row.Industry = secondWrite.Industry
              ∧ row.Tickers = secondWrite.Tickers
              ∧ row.Entities = secondWrite.Entities
              ∧ row.Summary = secondWrite.Summary
              ∧ row.Confidence = secondWrite.Confidence
              ∧ row.AnalyzedAt = secondWrite.AnalyzedAt) :=
  ⟨rfl, rfl, upsert_same_id_exactly_one_row_frame [] firstWrite secondWrite rfl rfl⟩

/-- `createTableIfNotExists` always leaves the table present, never touches
the indexes, and is the identity on a schema whose table already exists. -/
theorem createTableIfNotExists_spec (s : SchemaState) :
    (createTableIfNotExists s).tableExists = true
    ∧ (createTableIfNotExists s).indexes = s.indexes
    ∧ (s.tableExists = true → createTableIfNotExists s = s) := by
  unfold createTableIfNotExists
  by_cases h : s.tableExists <;> simp [h]

/-- `addColumnIfNotExists` ensures the column is present, keeps every
existing column, never touches table existence or indexes, and is the
identity when the column is already there. -/
theorem addColumnIfNotExists_spec (col : String) (s : SchemaState) :
    col ∈ (addColumnIfNotExists col s).tableColumns
    ∧ (∀ c ∈ s.tableColumns, c ∈ (addColumnIfNotExists col s).tableColumns)
    ∧ (addColumnIfNotExists col s).tableExists = s.tableExists
    ∧ (addColumnIfNotExists col s).indexes = s.indexes
    ∧ (col ∈ s.tableColumns → addColumnIfNotExists col s = s) := by
  unfold addColumnIfNotExists
  by_cases h : col ∈ s.tableColumns <;> simp [h]
  exact fun c hc => Or.inl hc

/-- `createIndexIfNotExists` ensures the index is present, keeps every
existing index, never touches the table, and is the identity when the
index is already there. -/
theorem createIndexIfNotExists_spec (idx : String) (s : SchemaState) :
    idx ∈ (createIndexIfNotExists idx s).indexes
    ∧ (∀ i ∈ s.indexes, i ∈ (createIndexIfNotExists idx s).indexes)
    ∧ (createIndexIfNotExists idx s).tableExists = s.tableExists
    ∧ (createIndexIfNotExists idx s).tableColumns = s.tableColumns
    ∧ (idx ∈ s.indexes → createIndexIfNotExists idx s = s) := by
  unfold createIndexIfNotExists
  by_cases h : idx ∈ s.indexes <;> simp [h]
  exact fun i hi => Or.inl hi

/-- After one run of the DDL batch the table exists. -/
theorem initDb_tableExists (s : SchemaState) :
    (initializeDatabaseAsync s).tableExists = true := by
  unfold initializeDatabaseAsync
  rw [(createIndexIfNotExists_spec _ _).2.2.1, (createIndexIfNotExists_spec _ _).2.2.1,
    (createIndexIfNotExists_spec _ _).2.2.1, (createIndexIfNotExists_spec _ _).2.2.1,
    (addColumnIfNotExists_spec _ _).2.2.1]
  exact (createTableIfNotExists_spec _).1

/-- After one run of the DDL batch the `industry` column exists. -/
theorem initDb_industry_mem (s : SchemaState) :
    "industry" ∈ (initializeDatabaseAsync s).tableColumns := by
  unfold initializeDatabaseAsync
  rw [(createIndexIfNotExists_spec _ _).2.2.2.1, (createIndexIfNotExists_spec _ _).2.2.2.1,
    (createIndexIfNotExists_spec _ _).2.2.2.1, (createIndexIfNotExists_spec _ _).2.2.2.1]
  exact (addColumnIfNotExists_spec _ _).1

/-- After one run of the DDL batch all four supporting indexes exist. -/
theorem initDb_indexes_mem (s : SchemaState) :
    "idx_analyzed_news_analyzed_at" ∈ (initializeDatabaseAsync s).indexes
    ∧ "idx_analyzed_news_sector" ∈ (initializeDatabaseAsync s).indexes
    ∧ "idx_analyzed_news_industry" ∈ (initializeDatabaseAsync s).indexes
    ∧ "idx_analyzed_news_sentiment" ∈ (initializeDatabaseAsync s).indexes := by
  unfold initializeDatabaseAsync
  refine ⟨?_, ?_, ?_, ?_⟩
  · exact (createIndexIfNotExists_spec _ _).2.1 _
      ((createIndexIfNotExists_spec _ _).2.1 _
        ((createIndexIfNotExists_spec _ _).2.1 _
          ((createIndexIfNotExists_spec _ _).1)))
  · exact (createIndexIfNotExists_spec _ _).2.1 _
      ((createIndexIfNotExists_spec _ _).2.1 _
        ((createIndexIfNotExists_spec _ _).1))
  · exact (createIndexIfNotExists_spec _ _).2.1 _
      ((createIndexIfNotExists_spec _ _).1)
  · exact (createIndexIfNotExists_spec _ _).1

/-- The DDL batch is the identity on any schema that already has the
table, the `industry` column and the four indexes. -/
theorem initDb_fixed (s : SchemaState) (h1 : s.tableExists = true)
    (h2 : "industry" ∈ s.tableColumns)
    (h3 : "idx_analyzed_news_analyzed_at" ∈ s.indexes)
    (h4 : "idx_analyzed_news_sector" ∈ s.indexes)
    (h5 : "idx_analyzed_news_industry" ∈ s.indexes)
    (h6 : "idx_analyzed_news_sentiment" ∈ s.indexes) :
    initializeDatabaseAsync s = s := by
  unfold initializeDatabaseAsync
  rw [(createTableIfNotExists_spec s).2.2 h1,
    (addColumnIfNotExists_spec _ s).2.2.2.2 h2,
    (createIndexIfNotExists_spec _ s).2.2.2.2 h3,
    (createIndexIfNotExists_spec _ s).2.2.2.2 h4,
    (createIndexIfNotExists_spec _ s).2.2.2.2 h5,
    (createIndexIfNotExists_spec _ s).2.2.2.2 h6]

/-- Claim C6: `InitializeDatabaseAsync` is idempotent and additive-only —
a second run leaves the schema exactly as a single run does, after a run
the table exists, every pre-existing index survives, and on an
already-existing table every pre-existing column survives (nothing is
dropped; every create/add is if-absent). -/
theorem initializeDatabase_idempotent_additive (s : SchemaState) :
    initializeDatabaseAsync (initializeDatabaseAsync s) = initializeDatabaseAsync s
    ∧ (initializeDatabaseAsync s).tableExists = true
    ∧ (∀ i ∈ s.indexes, i ∈ (initializeDatabaseAsync s).indexes)
    ∧ (s.tableExists = true →
        ∀ c ∈ s.tableColumns, c ∈ (initializeDatabaseAsync s).tableColumns) := by
  refine ⟨?_, initDb_tableExists s, ?_, ?_⟩
  · exact initDb_fixed _ (initDb_tableExists s) (initDb_industry_mem s)
      (initDb_indexes_mem s).1 (initDb_indexes_mem s).2.1
      (initDb_indexes_mem s).2.2.1 (initDb_indexes_mem s).2.2.2
  · intro i hi
    unfold initializeDatabaseAsync
    apply (createIndexIfNotExists_spec _ _).2.1
    apply (createIndexIfNotExists_spec _ _).2.1
    apply (createIndexIfNotExists_spec _ _).2.1
    apply (createIndexIfNotExists_spec _ _).2.1
    rw [(addColumnIfNotExists_spec _ _).2.2.2.1, (createTableIfNotExists_spec _).2.1]
    exact hi
  · intro hte c hc
    unfold initializeDatabaseAsync
    rw [(createIndexIfNotExists_spec _ _).2.2.2.1, (createIndexIfNotExists_spec _ _).2.2.2.1,
      (createIndexIfNotExists_spec _ _).2.2.2.1, (createIndexIfNotExists_spec _ _).2.2.2.1]
    apply (addColumnIfNotExists_spec _ _).2.1
    rw [(createTableIfNotExists_spec _).2.2 hte]
    exact hc

/-- A schema that is already fully initialized, used as the witness input. -/
def initializedSchema : SchemaState :=
  { tableExists := true
    tableColumns := analyzedNewsBaseColumns
    indexes := ["idx_analyzed_news_analyzed_at", "idx_analyzed_news_sector",
                "idx_analyzed_news_industry", "idx_analyzed_news_sentiment"] }

/-- Witness for claim C6 at an already-initialized schema. -/
theorem initializeDatabase_idempotent_additive_witness :
    initializeDatabaseAsync (initializeDatabaseAsync initializedSchema)
        = initializeDatabaseAsync initializedSchema
    ∧ (initializeDatabaseAsync initializedSchema).tableExists = true
    ∧ "idx_analyzed_news_sector" ∈ (initializeDatabaseAsync initializedSchema).indexes
    ∧ "title" ∈ (initializeDatabaseAsync initializedSchema).tableColumns :=
  ⟨(initializeDatabase_idempotent_additive initializedSchema).1,
    (initializeDatabase_idempotent_additive initializedSchema).2.1,
    (initializeDatabase_idempotent_additive initializedSchema).2.2.1 _ (by decide),
    (initializeDatabase_idempotent_additive initializedSchema).2.2.2 rfl _ (by decide)⟩

/-- Claim C7, counterexample: message content equal to the empty JSON
object `\x7b\x7d` — a successful parse missing both required fields — is not
rejected: `AnalyzeNewsAsync` returns a non-null analysis whose `sector`
and `sentiment` are silently defaulted to the empty string. -/
theorem missing_fields_silently_defaulted_cex :
    analyzeNewsAsync (AdapterEnv.parsedContent emptyObjectJson) ≠ none
    ∧ (deserializeNewsAnalysis emptyObjectJson).Sector = ""
    ∧ (deserializeNewsAnalysis emptyObjectJson).Sentiment = "" := by
  refine ⟨?_, rfl, rfl⟩
  decide

/-- Claim C7 as amended: unparseable message content yields the null
result (the adapter's only error channel), but a successfully parsed JSON
object missing the `sector` or `sentiment` property is NOT rejected — the
adapter returns an analysis with those fields silently defaulted to the
empty string by the reflection-driven deserializer. -/
theorem malformed_rejected_missing_fields_defaulted (j : AnalysisJson)
    (hsec : j.sector = none) (hsen : j.sentiment = none) :
    analyzeNewsAsync AdapterEnv.malformedContent = none
    ∧ analyzeNewsAsync (AdapterEnv.parsedContent j)
        = some (deserializeNewsAnalysis j)
    ∧ (deserializeNewsAnalysis j).Sector = ""
    ∧ (deserializeNewsAnalysis j).Sentiment = "" := by
  refine ⟨rfl, rfl, ?_, ?_⟩ <;> simp [deserializeNewsAnalysis, hsec, hsen]

/-- Witness for the amended claim C7 at the empty JSON object. -/
theorem malformed_rejected_missing_fields_defaulted_witness :
    emptyObjectJson.sector = none
    ∧ emptyObjectJson.sentiment = none
    ∧ (analyzeNewsAsync AdapterEnv.malformedContent = none
        ∧ analyzeNewsAsync (AdapterEnv.parsedContent emptyObjectJson)
            = some (deserializeNewsAnalysis emptyObjectJson)
        ∧ (deserializeNewsAnalysis emptyObjectJson).Sector = ""
        ∧ (deserializeNewsAnalysis emptyObjectJson).Sentiment = "") :=
  ⟨rfl, rfl, malformed_rejected_missing_fields_defaulted emptyObjectJson rfl rfl⟩

/-- Claim C8: when the adapter call for an item fails (returns null), the
worker loop writes no row for it, does not retry it, and simply continues
with the remaining queue — the drain of `(item :: rest)` equals the drain
of `rest` alone, on an unchanged table, and the per-item step leaves the
table untouched.  No failure is propagated: `processNewsQueue` always
returns a table, never an error. -/
theorem adapter_failure_skips_item (tryParse : String → Option Int) (now : Int)
    (sig : SignalData) (env : AdapterEnv)
    (rest : List (SignalData × AdapterEnv)) (db : List AnalyzedNewsRecord)
    (hfail : analyzeNewsAsync env = none) :
    processNewsQueue tryParse now ((sig, env) :: rest) db
        = processNewsQueue tryParse now rest db
    ∧ processNewsSignal env tryParse now sig db = db := by
  have hstep : processNewsSignal env tryParse now sig db = db := by
    unfold processNewsSignal
    rw [hfail]
  constructor
  · have hcons : processNewsQueue tryParse now ((sig, env) :: rest) db
        = processNewsQueue tryParse now rest (processNewsSignal env tryParse now sig db) :=
      rfl
    rw [hcons, hstep]
  · exact hstep

/-- Witness for claim C8: a failing (HTTP error) item ahead of a
succeeding one is skipped, and the rest of the queue is still processed. -/
theorem adapter_failure_skips_item_witness :
    analyzeNewsAsync AdapterEnv.httpError = none
    ∧ (processNewsQueue (fun _ => none) 0
          ((emptyIdSignal, AdapterEnv.httpError)
            :: [(sampleSignal, AdapterEnv.parsedContent emptyObjectJson)]) []
        = processNewsQueue (fun _ => none) 0
            [(sampleSignal, AdapterEnv.parsedContent emptyObjectJson)] []
      ∧ processNewsSignal AdapterEnv.httpError (fun _ => none) 0 emptyIdSignal [] = []) :=
  ⟨rfl, adapter_failure_skips_item (fun _ => none) 0 emptyIdSignal AdapterEnv.httpError
    [(sampleSignal, AdapterEnv.parsedContent emptyObjectJson)] [] rfl⟩

/-- Claim C9: the persisted published-at equals the parsed value of the
wire string when that string is non-empty and parseable, and equals the
current time when the string is empty or unparseable. -/
theorem publishedAt_parse_fallback (tryParse : String → Option Int) (now : Int)
    (sig : SignalData) (analysis : NewsAnalysisResponse) :
    (∀ d : Int, sig.Data.PublishedDate ≠ "" →
        tryParse sig.Data.PublishedDate = some d →
        (convertToAnalyzedNewsRecord tryParse now sig analysis).PublishedAt = d)
    ∧ (sig.Data.PublishedDate = "" →
        (convertToAnalyzedNewsRecord tryParse now sig analysis).PublishedAt = now)
    ∧ (tryParse sig.Data.PublishedDate = none →
        (convertToAnalyzedNewsRecord tryParse now sig analysis).PublishedAt = now) := by
  refine ⟨?_, ?_, ?_⟩
  · intro d hne hparse
    simp [convertToAnalyzedNewsRecord, parsePublishedAt, hne, hparse]
  · intro hempty
    simp [convertToAnalyzedNewsRecord, parsePublishedAt, hempty]
  · intro hnone
    unfold convertToAnalyzedNewsRecord parsePublishedAt
    by_cases hs : sig.Data.PublishedDate = "" <;> simp [hs, hnone]

/-- A concrete stand-in for `DateTime.TryParse`: parses exactly the string
"2025-06-07" to the instant 5. -/
def tryParseSample : String → Option Int :=
  fun s => if s = "2025-06-07" then some 5 else none

/-- An envelope whose payload carries the parseable date. -/
def parseableDateSignal : SignalData :=
  { Id := "n2", Timestamp := "t",
    Data := { Title := "T", Description := "D", Link := "L",
              PublishedDate := "2025-06-07", Source := "S", Id := "n2",
              Category := none, Sentiment := none } }

/-- An envelope whose payload carries an unparseable date. -/
def badDateSignal : SignalData :=
  { Id := "n3", Timestamp := "t",
    Data := { Title := "T", Description := "D", Link := "L",
              PublishedDate := "not-a-date", Source := "S", Id := "n3",
              Category := none, Sentiment := none } }

/-- Witness for claim C9 covering all three cases: parseable non-empty
string, empty string, unparseable string (with now = 7). -/
theorem publishedAt_parse_fallback_witness :
    (convertToAnalyzedNewsRecord tryParseSample 7 parseableDateSignal
        (deserializeNewsAnalysis emptyObjectJson)).PublishedAt = 5
    ∧ (convertToAnalyzedNewsRecord tryParseSample 7 sampleSignal
        (deserializeNewsAnalysis emptyObjectJson)).PublishedAt = 7
    ∧ (convertToAnalyzedNewsRecord tryParseSample 7 badDateSignal
        (deserializeNewsAnalysis emptyObjectJson)).PublishedAt = 7 :=
  ⟨(publishedAt_parse_fallback tryParseSample 7 parseableDateSignal
      (deserializeNewsAnalysis emptyObjectJson)).1 5 (by decide) (by decide),
    (publishedAt_parse_fallback tryParseSample 7 sampleSignal
      (deserializeNewsAnalysis emptyObjectJson)).2.1 rfl,
    (publishedAt_parse_fallback tryParseSample 7 badDateSignal
      (deserializeNewsAnalysis emptyObjectJson)).2.2 (by decide)⟩

/-- Claim C10: the adapter is total over its error channel — whenever the
body of `AnalyzeNewsAsync` throws (transport failure, JSON exception) the
catch-all converts the exception to the null result, and every failure
mode short of successfully parsed content (non-success status, empty or
invalid envelope, unparseable or null content) yields the null result
rather than a propagated exception. -/
theorem analyzeNews_total_error_channel (env : AdapterEnv) :
    (∀ e : DotnetException, analyzeNewsBody env = Except.error e →
        analyzeNewsAsync env = none)
    ∧ (isParsedContent env = false → analyzeNewsAsync env = none) := by
  cases env <;>
    simp [analyzeNewsAsync, analyzeNewsBody, isParsedContent]

/-- Witness for claim C10 at two concrete failure modes: a thrown
transport exception and a thrown JSON exception both surface as null. -/
theorem analyzeNews_total_error_channel_witness :
    analyzeNewsAsync AdapterEnv.transportThrow = none
    ∧ analyzeNewsAsync AdapterEnv.malformedContent = none :=
  ⟨(analyzeNews_total_error_channel AdapterEnv.transportThrow).1
      DotnetException.httpRequestException rfl,
    (analyzeNews_total_error_channel AdapterEnv.malformedContent).2 rfl⟩

end TradingNews
